import Mathlib

/-!
Verification of the pakr-signals library (src/lib.rs): a wrapper around
Linux sigset_t, the Sig enumeration of named signals, and the process-id
and signal-mask syscall wrappers.  libc sigset primitives (sigemptyset,
sigfillset, sigaddset, sigdelset, sigismember, pthread_sigmask) are
modelled by their documented Linux semantics; the OS return value of each
wrapped syscall is made an explicit input.
-/

namespace PakrSignals

/-- Linux signals — the `Sig` enum of src/lib.rs (30 named signals). -/
inductive Sig where
  | ABRT | ALRM | BUS | CHLD | CONT | FPE | HUP | ILL | INT | KILL
  | PIPE | POLL | PROF | PWR | QUIT | SEGV | STKFLT | STOP | SYS | TERM
  | TSTP | TTIN | TTOU | URG | USR1 | USR2 | VTALRM | WINCH | XCPU | XFSZ
  deriving DecidableEq, Repr

/-- `impl Into<i32> for Sig`: the discriminant of each variant, i.e. the
Linux (x86-64) numeric code assigned in the `Sig` declaration
(`ABRT = libc::SIGABRT`, ...). -/
def Sig.toNumeric : Sig → Int
  | .ABRT => 6
  | .ALRM => 14
  | .BUS => 7
  | .CHLD => 17
  | .CONT => 18
  | .FPE => 8
  | .HUP => 1
  | .ILL => 4
  | .INT => 2
  | .KILL => 9
  | .PIPE => 13
  | .POLL => 29
  | .PROF => 27
  | .PWR => 30
  | .QUIT => 3
  | .SEGV => 11
  | .STKFLT => 16
  | .STOP => 19
  | .SYS => 31
  | .TERM => 15
  | .TSTP => 20
  | .TTIN => 21
  | .TTOU => 22
  | .URG => 23
  | .USR1 => 10
  | .USR2 => 12
  | .VTALRM => 26
  | .WINCH => 28
  | .XCPU => 24
  | .XFSZ => 25

/-- `impl From<i32> for Sig`: match on the numeric code; the catch-all arm
`s => panic!(...)` is embedded as `none`. -/
def Sig.fromNumeric (sig : Int) : Option Sig :=
  if sig = 6 then some .ABRT
  else if sig = 14 then some .ALRM
  else if sig = 7 then some .BUS
  else if sig = 17 then some .CHLD
  else if sig = 18 then some .CONT
  else if sig = 8 then some .FPE
  else if sig = 1 then some .HUP
  else if sig = 4 then some .ILL
  else if sig = 2 then some .INT
  else if sig = 9 then some .KILL
  else if sig = 13 then some .PIPE
  else if sig = 29 then some .POLL
  else if sig = 27 then some .PROF
  else if sig = 30 then some .PWR
  else if sig = 3 then some .QUIT
  else if sig = 11 then some .SEGV
  else if sig = 16 then some .STKFLT
  else if sig = 19 then some .STOP
  else if sig = 31 then some .SYS
  else if sig = 15 then some .TERM
  else if sig = 20 then some .TSTP
  else if sig = 21 then some .TTIN
  else if sig = 22 then some .TTOU
  else if sig = 23 then some .URG
  else if sig = 10 then some .USR1
  else if sig = 12 then some .USR2
  else if sig = 26 then some .VTALRM
  else if sig = 28 then some .WINCH
  else if sig = 24 then some .XCPU
  else if sig = 25 then some .XFSZ
  else none

/-- The list of all 30 named signals (the `SIG_ALL` constant of the tests). -/
def SIG_ALL : List Sig :=
  [.ABRT, .ALRM, .BUS, .CHLD, .CONT, .FPE, .HUP, .ILL, .INT, .KILL,
   .PIPE, .POLL, .PROF, .PWR, .QUIT, .SEGV, .STKFLT, .STOP, .SYS, .TERM,
   .TSTP, .TTIN, .TTOU, .URG, .USR1, .USR2, .VTALRM, .WINCH, .XCPU, .XFSZ]

/-! ## The sigset_t model

Linux `sigset_t` is a fixed-width bitset over signal numbers 1..64
(the kernel `_NSIG = 64`).  We model it as its characteristic function on
`Int`; the libc primitives below follow their documented Linux semantics
(invalid signal numbers make `sigaddset`/`sigdelset` fail with -1 and
leave the set unchanged, and make `sigismember` return -1). -/

/-- The underlying `libc::sigset_t` bitset, as a characteristic function. -/
def SigsetT : Type := Int → Bool

/-- A signal number the kernel bitset can represent: 1..64. -/
def sigValid (n : Int) : Prop := 1 ≤ n ∧ n ≤ 64

instance (n : Int) : Decidable (sigValid n) := by
  unfold sigValid; infer_instance

/-- `libc::sigemptyset`: clear every bit; always succeeds (returns 0). -/
def sigemptyset : SigsetT × Int := (fun _ => false, 0)

/-- `libc::sigfillset`: set every representable bit; always succeeds. -/
def sigfillset : SigsetT × Int := (fun n => decide (sigValid n), 0)

/-- `libc::sigaddset`: set the bit of a valid signal number and return 0;
on an invalid number leave the set unchanged and return -1. -/
def sigaddset (set : SigsetT) (n : Int) : SigsetT × Int :=
  if sigValid n then (fun m => if m = n then true else set m, 0)
  else (set, -1)

/-- `libc::sigdelset`: clear the bit of a valid signal number and return 0;
on an invalid number leave the set unchanged and return -1. -/
def sigdelset (set : SigsetT) (n : Int) : SigsetT × Int :=
  if sigValid n then (fun m => if m = n then false else set m, 0)
  else (set, -1)

/-- `libc::sigismember`: 1 if the bit of a valid signal number is set,
0 if it is clear, -1 on an invalid number. -/
def sigismember (set : SigsetT) (n : Int) : Int :=
  if sigValid n then (if set n then 1 else 0) else -1

/-! ## SigSet: the wrapper type of src/lib.rs

Each Rust method mutates `self` in place and returns `&mut Self`; we embed
it as a function from the old set to the new set. -/

/-- `pub struct SigSet(sigset_t)`. -/
def SigSet : Type := SigsetT

/-- `SigSet::new`: `sigemptyset` on fresh storage. -/
def SigSet.new : SigSet := sigemptyset.1

/-- `SigSet::clear`: `sigemptyset(&mut self.0)`. -/
def SigSet.clear (_self : SigSet) : SigSet := sigemptyset.1

/-- `SigSet::fill`: `sigfillset(&mut self.0)`. -/
def SigSet.fill (_self : SigSet) : SigSet := sigfillset.1

/-- `SigSet::add`: `sigaddset(&mut self.0, sig.into())`, the return
value discarded. -/
def SigSet.add (self : SigSet) (sig : Sig) : SigSet :=
  (sigaddset self sig.toNumeric).1

/-- `SigSet::add_many`: `for &sig in sigs { self.add(sig); }`. -/
def SigSet.add_many (self : SigSet) (sigs : List Sig) : SigSet :=
  sigs.foldl SigSet.add self

/-- `SigSet::remove`: `sigdelset(&mut self.0, sig.into())`, the return
value discarded. -/
def SigSet.remove (self : SigSet) (sig : Sig) : SigSet :=
  (sigdelset self sig.toNumeric).1

/-- `SigSet::remove_many`: `for &sig in sigs { self.remove(sig); }`. -/
def SigSet.remove_many (self : SigSet) (sigs : List Sig) : SigSet :=
  sigs.foldl SigSet.remove self

/-- `SigSet::has`: `match sigismember(&self.0, sig.into()) { 1 => true,
_ => false }`. -/
def SigSet.has (self : SigSet) (sig : Sig) : Bool :=
  match sigismember self sig.toNumeric with
  | 1 => true
  | _ => false

/-- `SigSet::has_any`: loop returning true at the first member found,
false after exhausting the list. -/
def SigSet.has_any (self : SigSet) (sigs : List Sig) : Bool :=
  match sigs with
  | [] => false
  | sig :: rest => if self.has sig then true else self.has_any rest

/-- `SigSet::has_all`: loop returning false at the first non-member found,
true after exhausting the list. -/
def SigSet.has_all (self : SigSet) (sigs : List Sig) : Bool :=
  match sigs with
  | [] => true
  | sig :: rest => if !(self.has sig) then false else self.has_all rest

/-- `SigSet::from`: `let mut sigset = Self::new(); sigset.add_many(sigs);
sigset`. -/
def SigSet.from (sigs : List Sig) : SigSet :=
  SigSet.new.add_many sigs

/-! ## Syscall wrappers

Each wrapped OS call is embedded with the raw OS return value and the
current `errno` (the last reported OS error code) as explicit inputs;
the branching of the wrapper on the return value is the code under test. -/

/-- `pub struct Pid(pid_t)`. -/
structure Pid where
  val : Int
  deriving DecidableEq, Repr

/-- `Pid::own`: wraps `libc::getpid`; `Err(last_os_error)` when the call
returns -1, `Ok(Pid(pid))` otherwise. -/
def Pid.own (osRet : Int) (osErr : Int) : Except Int Pid :=
  if osRet = -1 then .error osErr else .ok ⟨osRet⟩

/-- `Pid::parent`: wraps `libc::getppid`; same shape as `Pid::own`. -/
def Pid.parent (osRet : Int) (osErr : Int) : Except Int Pid :=
  if osRet = -1 then .error osErr else .ok ⟨osRet⟩

/-- `Pid::send`: wraps `libc::kill(self.0, sig.into())`;
`Err(last_os_error)` when the call returns -1, `Ok(())` otherwise. -/
def Pid.send (_self : Pid) (_sig : Sig) (osRet : Int) (osErr : Int) :
    Except Int Unit :=
  if osRet = -1 then .error osErr else .ok ()

/-- `Sig::send_to`: `pid.send(self)`. -/
def Sig.send_to (self : Sig) (pid : Pid) (osRet : Int) (osErr : Int) :
    Except Int Unit :=
  pid.send self osRet osErr

/-- `libc::SIG_BLOCK` on Linux. -/
def SIG_BLOCK : Int := 0

/-- `libc::SIG_UNBLOCK` on Linux. -/
def SIG_UNBLOCK : Int := 1

/-- The signal mask of the calling thread, kernel state outside the library:
the set of currently blocked signal numbers. -/
def Mask : Type := Int → Bool

/-- Modelled from the spec: the unblockable signals, whose blocking the
OS call silently ignores — kill and stop ("callers must not assume
blocking kill/stop signals has effect"). -/
def unblockable (n : Int) : Bool :=
  n = Sig.KILL.toNumeric || n = Sig.STOP.toNumeric

/-- Modelled from the spec: the effect of `libc::pthread_sigmask` on the
mask of the calling thread (the call itself is OS code, not in src/).
`SIG_BLOCK` adds the members of the supplied set to the mask — except the
unblockable signals, which "the OS call simply ignores silently" — and
`SIG_UNBLOCK` removes them, in both cases "leaving all other
currently-blocked signals untouched". -/
def pthread_sigmask_effect (action : Int) (set : SigSet) (mask : Mask) :
    Mask :=
  if action = SIG_BLOCK then
    fun n => mask n || (set n && !(unblockable n))
  else if action = SIG_UNBLOCK then fun n => mask n && !(set n)
  else fun n => set n

/-- `SigSet::set_procmask`: wraps `pthread_sigmask(action, self.as_ptr(),
null)`; `Err(last_os_error)` when the call returns -1, `Ok(())`
otherwise. -/
def SigSet.set_procmask (_self : SigSet) (_action : Int)
    (osRet : Int) (osErr : Int) : Except Int Unit :=
  if osRet = -1 then .error osErr else .ok ()

/-- `SigSet::disable_default_handler`: `self.set_procmask(SIG_BLOCK)`.
The returned value is the result of the wrapper; the mask effect is
`pthread_sigmask_effect SIG_BLOCK`. -/
def SigSet.disable_default_handler (self : SigSet)
    (osRet : Int) (osErr : Int) : Except Int Unit :=
  self.set_procmask SIG_BLOCK osRet osErr

/-- The mask after `disable_default_handler` succeeds. -/
def SigSet.disable_default_handler_mask (self : SigSet) (mask : Mask) :
    Mask :=
  pthread_sigmask_effect SIG_BLOCK self mask

/-- `SigSet::enable_default_handler`: `self.set_procmask(SIG_UNBLOCK)`. -/
def SigSet.enable_default_handler (self : SigSet)
    (osRet : Int) (osErr : Int) : Except Int Unit :=
  self.set_procmask SIG_UNBLOCK osRet osErr

/-- The mask after `enable_default_handler` succeeds. -/
def SigSet.enable_default_handler_mask (self : SigSet) (mask : Mask) :
    Mask :=
  pthread_sigmask_effect SIG_UNBLOCK self mask

/-! ## Helper lemmas -/

/-- The numeric code of every named signal lies in the kernel range 1..64. -/
theorem Sig.toNumeric_valid (s : Sig) : sigValid s.toNumeric := by
  cases s <;> decide

/-- The bit set by `SigSet.add`, pointwise. -/
theorem SigSet.add_apply (set : SigSet) (s : Sig) (m : Int) :
    set.add s m = if m = s.toNumeric then true else set m := by
  unfold SigSet.add sigaddset
  rw [if_pos (Sig.toNumeric_valid s)]

/-- The bit cleared by `SigSet.remove`, pointwise. -/
theorem SigSet.remove_apply (set : SigSet) (s : Sig) (m : Int) :
    set.remove s m = if m = s.toNumeric then false else set m := by
  unfold SigSet.remove sigdelset
  rw [if_pos (Sig.toNumeric_valid s)]

/-- `SigSet.has` reads exactly the bit of the numeric code of the signal. -/
theorem SigSet.has_eq_bit (set : SigSet) (s : Sig) :
    set.has s = set s.toNumeric := by
  unfold SigSet.has sigismember
  rw [if_pos (Sig.toNumeric_valid s)]
  cases h : set s.toNumeric <;> simp [h]

/-- `SigSet.has_any` is true iff some listed signal is a member. -/
theorem SigSet.has_any_iff (set : SigSet) (sigs : List Sig) :
    set.has_any sigs = true ↔ ∃ s ∈ sigs, set.has s = true := by
  induction sigs with
  | nil => simp [SigSet.has_any]
  | cons a rest ih =>
      by_cases h : set.has a <;> simp [SigSet.has_any, h, ih]

/-- `SigSet.has_all` is true iff every listed signal is a member. -/
theorem SigSet.has_all_iff (set : SigSet) (sigs : List Sig) :
    set.has_all sigs = true ↔ ∀ s ∈ sigs, set.has s = true := by
  induction sigs with
  | nil => simp [SigSet.has_all]
  | cons a rest ih =>
      by_cases h : set.has a <;> simp [SigSet.has_all, h, ih]

/-- Numeric round-trip, first direction: converting the code of a named signal
back yields the same signal. -/
theorem Sig.fromNumeric_toNumeric (s : Sig) :
    Sig.fromNumeric s.toNumeric = some s := by
  cases s <;> rfl

/-- On a code that belongs to no named signal, `fromNumeric` reaches the
catch-all (panic) arm. -/
theorem Sig.fromNumeric_eq_none (c : Int)
    (hall : ∀ s : Sig, s.toNumeric ≠ c) : Sig.fromNumeric c = none := by
  unfold Sig.fromNumeric
  rw [if_neg (Ne.symm (show (6 : Int) ≠ c from hall .ABRT)),
    if_neg (Ne.symm (show (14 : Int) ≠ c from hall .ALRM)),
    if_neg (Ne.symm (show (7 : Int) ≠ c from hall .BUS)),
    if_neg (Ne.symm (show (17 : Int) ≠ c from hall .CHLD)),
    if_neg (Ne.symm (show (18 : Int) ≠ c from hall .CONT)),
    if_neg (Ne.symm (show (8 : Int) ≠ c from hall .FPE)),
    if_neg (Ne.symm (show (1 : Int) ≠ c from hall .HUP)),
    if_neg (Ne.symm (show (4 : Int) ≠ c from hall .ILL)),
    if_neg (Ne.symm (show (2 : Int) ≠ c from hall .INT)),
    if_neg (Ne.symm (show (9 : Int) ≠ c from hall .KILL)),
    if_neg (Ne.symm (show (13 : Int) ≠ c from hall .PIPE)),
    if_neg (Ne.symm (show (29 : Int) ≠ c from hall .POLL)),
    if_neg (Ne.symm (show (27 : Int) ≠ c from hall .PROF)),
    if_neg (Ne.symm (show (30 : Int) ≠ c from hall .PWR)),
    if_neg (Ne.symm (show (3 : Int) ≠ c from hall .QUIT)),
    if_neg (Ne.symm (show (11 : Int) ≠ c from hall .SEGV)),
    if_neg (Ne.symm (show (16 : Int) ≠ c from hall .STKFLT)),
    if_neg (Ne.symm (show (19 : Int) ≠ c from hall .STOP)),
    if_neg (Ne.symm (show (31 : Int) ≠ c from hall .SYS)),
    if_neg (Ne.symm (show (15 : Int) ≠ c from hall .TERM)),
    if_neg (Ne.symm (show (20 : Int) ≠ c from hall .TSTP)),
    if_neg (Ne.symm (show (21 : Int) ≠ c from hall .TTIN)),
    if_neg (Ne.symm (show (22 : Int) ≠ c from hall .TTOU)),
    if_neg (Ne.symm (show (23 : Int) ≠ c from hall .URG)),
    if_neg (Ne.symm (show (10 : Int) ≠ c from hall .USR1)),
    if_neg (Ne.symm (show (12 : Int) ≠ c from hall .USR2)),
    if_neg (Ne.symm (show (26 : Int) ≠ c from hall .VTALRM)),
    if_neg (Ne.symm (show (28 : Int) ≠ c from hall .WINCH)),
    if_neg (Ne.symm (show (24 : Int) ≠ c from hall .XCPU)),
    if_neg (Ne.symm (show (25 : Int) ≠ c from hall .XFSZ))]

/-- Distinct named signals have distinct numeric codes. -/
theorem Sig.toNumeric_injective : Function.Injective Sig.toNumeric := by
  intro a b hab
  have h := congrArg Sig.fromNumeric hab
  rw [Sig.fromNumeric_toNumeric, Sig.fromNumeric_toNumeric] at h
  exact Option.some.inj h

/-! ## Claim theorems -/

/-- C1: for every named signal s, from a fresh empty set, `add(s)` makes
`has(s)` true, a subsequent `remove(s)` makes `has(s)` false, and adding s
twice is observationally identical (same `has` for every named signal) to
adding it once. -/
theorem spec_c1 (s : Sig) :
    (SigSet.new.add s).has s = true ∧
    ((SigSet.new.add s).remove s).has s = false ∧
    ∀ t : Sig, ((SigSet.new.add s).add s).has t = (SigSet.new.add s).has t := by
  refine ⟨?_, ?_, ?_⟩
  · rw [SigSet.has_eq_bit, SigSet.add_apply]
    simp
  · rw [SigSet.has_eq_bit, SigSet.remove_apply]
    simp
  · intro t
    simp only [SigSet.has_eq_bit, SigSet.add_apply]
    by_cases h : t.toNumeric = s.toNumeric <;> simp [h]

/-- C2: for every set state and list of signals, `has_any` is true iff at
least one listed signal is a member (false on the empty list) and
`has_all` is true iff every listed signal is a member (true on the empty
list). -/
theorem spec_c2 (set : SigSet) (sigs : List Sig) :
    (set.has_any sigs = true ↔ ∃ s ∈ sigs, set.has s = true) ∧
    set.has_any [] = false ∧
    (set.has_all sigs = true ↔ ∀ s ∈ sigs, set.has s = true) ∧
    set.has_all [] = true :=
  ⟨set.has_any_iff sigs, rfl, set.has_all_iff sigs, rfl⟩

/-- C3: a fresh set has no named signal; after `fill()`, `has_all` and
`has_any` of the full named-signal list are true; after `fill()` then
`clear()`, `has_any` of that list is false. -/
theorem spec_c3 (set : SigSet) (s : Sig) :
    SigSet.new.has s = false ∧
    (set.fill).has_all SIG_ALL = true ∧
    (set.fill).has_any SIG_ALL = true ∧
    ((set.fill).clear).has_any SIG_ALL = false := by
  refine ⟨?_, ?_, ?_, ?_⟩
  · cases s <;> rfl
  · rfl
  · rfl
  · rfl

/-- C4: numeric round-trip — for every named signal s,
`from_numeric(to_numeric(s)) == s`. -/
theorem spec_c4 (s : Sig) : Sig.fromNumeric s.toNumeric = some s :=
  Sig.fromNumeric_toNumeric s

/-- C5: the numeric-to-signal conversion reaches the panic arm (embedded
as `none`) exactly on the codes that belong to no named signal, and
succeeds exactly on the codes of named signals. -/
theorem spec_c5 (c : Int) :
    (Sig.fromNumeric c = none ↔ ∀ s : Sig, s.toNumeric ≠ c) ∧
    ((Sig.fromNumeric c).isSome = true ↔ ∃ s : Sig, s.toNumeric = c) := by
  constructor
  · constructor
    · intro hnone s hsc
      rw [← hsc, Sig.fromNumeric_toNumeric] at hnone
      exact Option.noConfusion hnone
    · exact Sig.fromNumeric_eq_none c
  · constructor
    · intro hsome
      by_contra hnot
      push_neg at hnot
      rw [Sig.fromNumeric_eq_none c hnot] at hsome
      simp at hsome
    · rintro ⟨s, hs⟩
      rw [← hs, Sig.fromNumeric_toNumeric]
      rfl

/-- Counterexample to C6 as stated: KILL is a member of the set, yet
after `disable_default_handler` its mask bit is unchanged (still
unblocked), because the OS silently ignores blocking of unblockable
signals. -/
theorem spec_c6_counterexample :
    (SigSet.from [Sig.KILL]) 9 = true ∧
    Sig.KILL.toNumeric = 9 ∧
    (SigSet.from [Sig.KILL]).disable_default_handler_mask SigSet.new 9
      = false ∧
    SigSet.new 9 = false := by
  refine ⟨by decide, by decide, ?_, by decide⟩
  decide

/-- C6 (amended): `disable_default_handler` applies the set to the thread
mask in block mode — every member except the unblockable signals (KILL,
STOP) becomes blocked, while the mask bit of an unblockable signal is
always left unchanged — `enable_default_handler` applies it in unblock
mode (every member becomes unblocked), and both leave the status of every
signal number outside the set unchanged. -/
theorem spec_c6 (set : SigSet) (mask : Mask) (n : Int) :
    (set n = true → unblockable n = false →
      set.disable_default_handler_mask mask n = true) ∧
    (unblockable n = true →
      set.disable_default_handler_mask mask n = mask n) ∧
    (set n = true → set.enable_default_handler_mask mask n = false) ∧
    (set n = false → set.disable_default_handler_mask mask n = mask n) ∧
    (set n = false → set.enable_default_handler_mask mask n = mask n) := by
  refine ⟨?_, ?_, ?_, ?_, ?_⟩ <;> intro h <;>
    first
    | (intro h2 ;
        simp [SigSet.disable_default_handler_mask,
          SigSet.enable_default_handler_mask, pthread_sigmask_effect,
          SIG_BLOCK, SIG_UNBLOCK, h, h2])
    | simp [SigSet.disable_default_handler_mask,
        SigSet.enable_default_handler_mask, pthread_sigmask_effect,
        SIG_BLOCK, SIG_UNBLOCK, h]

/-- Witness for C6 at the empty mask: the set containing only INT at the
signal numbers 2 (blockable member) and 10 (outside the set), and the set
containing only KILL at the signal number 9 (unblockable member). -/
theorem spec_c6_witness :
    ((SigSet.from [Sig.INT]) 2 = true ∧ unblockable 2 = false ∧
      (SigSet.from [Sig.INT]).disable_default_handler_mask SigSet.new 2
        = true ∧
      (SigSet.from [Sig.INT]).enable_default_handler_mask SigSet.new 2
        = false) ∧
    (unblockable 9 = true ∧
      (SigSet.from [Sig.KILL]).disable_default_handler_mask SigSet.new 9
        = SigSet.new 9) ∧
    ((SigSet.from [Sig.INT]) 10 = false ∧
      (SigSet.from [Sig.INT]).disable_default_handler_mask SigSet.new 10
        = SigSet.new 10 ∧
      (SigSet.from [Sig.INT]).enable_default_handler_mask SigSet.new 10
        = SigSet.new 10) :=
  ⟨⟨by decide, by decide,
    (spec_c6 (SigSet.from [Sig.INT]) SigSet.new 2).1 (by decide)
      (by decide),
    (spec_c6 (SigSet.from [Sig.INT]) SigSet.new 2).2.2.1 (by decide)⟩,
   ⟨by decide,
    (spec_c6 (SigSet.from [Sig.KILL]) SigSet.new 9).2.1 (by decide)⟩,
   ⟨by decide,
    (spec_c6 (SigSet.from [Sig.INT]) SigSet.new 10).2.2.2.1 (by decide),
    (spec_c6 (SigSet.from [Sig.INT]) SigSet.new 10).2.2.2.2
      (by decide)⟩⟩

/-- C7: the pre-populated constructor `from(sigs)` is observationally
identical (same `has` for every named signal) to `new()` followed by
`add_many(sigs)`. -/
theorem spec_c7 (sigs : List Sig) (t : Sig) :
    (SigSet.from sigs).has t = (SigSet.new.add_many sigs).has t := rfl

/-- C8: every signal-set mutation and membership query is total and never
fails: the underlying bitset primitives return success (0, never -1) for
every set state and named-signal argument. -/
theorem spec_c8 (set : SigSet) (s : Sig) :
    sigemptyset.2 = 0 ∧ sigfillset.2 = 0 ∧
    (sigaddset set s.toNumeric).2 = 0 ∧
    (sigdelset set s.toNumeric).2 = 0 ∧
    sigismember set s.toNumeric ≠ -1 := by
  refine ⟨rfl, rfl, ?_, ?_, ?_⟩
  · unfold sigaddset
    rw [if_pos (Sig.toNumeric_valid s)]
  · unfold sigdelset
    rw [if_pos (Sig.toNumeric_valid s)]
  · unfold sigismember
    rw [if_pos (Sig.toNumeric_valid s)]
    cases h : set s.toNumeric <;> simp

/-- C9: every wrapped OS call (own-id, parent-id, send, mask-change)
returns an error carrying the last OS error code iff the raw call
returns -1, returns success otherwise, and performs no translation:
`send_to` delegates to `send` and the two mask-change entry points
delegate to `set_procmask` with the block/unblock action. -/
theorem spec_c9 (ret err : Int) (p : Pid) (s : Sig) (set : SigSet)
    (a : Int) :
    (Pid.own ret err = Except.error err ↔ ret = -1) ∧
    (Pid.own ret err = Except.ok ⟨ret⟩ ↔ ret ≠ -1) ∧
    (Pid.parent ret err = Except.error err ↔ ret = -1) ∧
    (Pid.parent ret err = Except.ok ⟨ret⟩ ↔ ret ≠ -1) ∧
    (p.send s ret err = Except.error err ↔ ret = -1) ∧
    (p.send s ret err = Except.ok () ↔ ret ≠ -1) ∧
    s.send_to p ret err = p.send s ret err ∧
    (set.set_procmask a ret err = Except.error err ↔ ret = -1) ∧
    (set.set_procmask a ret err = Except.ok () ↔ ret ≠ -1) ∧
    set.disable_default_handler ret err
      = set.set_procmask SIG_BLOCK ret err ∧
    set.enable_default_handler ret err
      = set.set_procmask SIG_UNBLOCK ret err := by
  by_cases h : ret = -1 <;>
    simp [Pid.own, Pid.parent, Pid.send, Sig.send_to,
      SigSet.set_procmask, SigSet.disable_default_handler,
      SigSet.enable_default_handler, h]

/-- C10: for distinct named signals s and t, `add(s)` and `remove(s)`
leave the membership of t unchanged, for every set state. -/
theorem spec_c10 (set : SigSet) (s t : Sig) (h : s ≠ t) :
    (set.add s).has t = set.has t ∧
    (set.remove s).has t = set.has t := by
  have hn : t.toNumeric ≠ s.toNumeric :=
    fun he => h ((Sig.toNumeric_injective he).symm)
  constructor
  · rw [SigSet.has_eq_bit, SigSet.has_eq_bit, SigSet.add_apply, if_neg hn]
  · rw [SigSet.has_eq_bit, SigSet.has_eq_bit, SigSet.remove_apply,
      if_neg hn]

/-- Witness for C10 at the distinct signals INT and USR1 and the empty
set. -/
theorem spec_c10_witness :
    Sig.INT ≠ Sig.USR1 ∧
    ((SigSet.new.add Sig.INT).has Sig.USR1 = SigSet.new.has Sig.USR1 ∧
     (SigSet.new.remove Sig.INT).has Sig.USR1
       = SigSet.new.has Sig.USR1) :=
  ⟨by decide, spec_c10 SigSet.new Sig.INT Sig.USR1 (by decide)⟩

/-- Witness for C1 at the signal INT, with the identical-state conjunct
instantiated at USR1. -/
theorem spec_c1_witness :
    (SigSet.new.add Sig.INT).has Sig.INT = true ∧
    ((SigSet.new.add Sig.INT).remove Sig.INT).has Sig.INT = false ∧
    ((SigSet.new.add Sig.INT).add Sig.INT).has Sig.USR1
      = (SigSet.new.add Sig.INT).has Sig.USR1 :=
  ⟨(spec_c1 Sig.INT).1, (spec_c1 Sig.INT).2.1,
   (spec_c1 Sig.INT).2.2 Sig.USR1⟩

/-- Witness for C2 at the set containing only INT and the list
[INT, USR1]. -/
theorem spec_c2_witness :
    ((SigSet.from [Sig.INT]).has_any [Sig.INT, Sig.USR1] = true ↔
      ∃ s ∈ [Sig.INT, Sig.USR1], (SigSet.from [Sig.INT]).has s = true) ∧
    (SigSet.from [Sig.INT]).has_any [] = false ∧
    ((SigSet.from [Sig.INT]).has_all [Sig.INT, Sig.USR1] = true ↔
      ∀ s ∈ [Sig.INT, Sig.USR1], (SigSet.from [Sig.INT]).has s = true) ∧
    (SigSet.from [Sig.INT]).has_all [] = true :=
  spec_c2 (SigSet.from [Sig.INT]) [Sig.INT, Sig.USR1]

/-- Witness for C3 at the empty set and the signal HUP. -/
theorem spec_c3_witness :
    SigSet.new.has Sig.HUP = false ∧
    (SigSet.new.fill).has_all SIG_ALL = true ∧
    (SigSet.new.fill).has_any SIG_ALL = true ∧
    ((SigSet.new.fill).clear).has_any SIG_ALL = false :=
  spec_c3 SigSet.new Sig.HUP

/-- Witness for C4 at the signal INT. -/
theorem spec_c4_witness :
    Sig.fromNumeric Sig.INT.toNumeric = some Sig.INT :=
  spec_c4 Sig.INT

/-- Witness for C5 at the code 5, which belongs to no named signal. -/
theorem spec_c5_witness :
    (Sig.fromNumeric 5 = none ↔ ∀ s : Sig, s.toNumeric ≠ 5) ∧
    ((Sig.fromNumeric 5).isSome = true ↔ ∃ s : Sig, s.toNumeric = 5) :=
  spec_c5 5

/-- Witness for C7 at the list [INT] and the signal INT. -/
theorem spec_c7_witness :
    (SigSet.from [Sig.INT]).has Sig.INT
      = (SigSet.new.add_many [Sig.INT]).has Sig.INT :=
  spec_c7 [Sig.INT] Sig.INT

/-- Witness for C8 at the empty set and the signal INT. -/
theorem spec_c8_witness :
    sigemptyset.2 = 0 ∧ sigfillset.2 = 0 ∧
    (sigaddset SigSet.new Sig.INT.toNumeric).2 = 0 ∧
    (sigdelset SigSet.new Sig.INT.toNumeric).2 = 0 ∧
    sigismember SigSet.new Sig.INT.toNumeric ≠ -1 :=
  spec_c8 SigSet.new Sig.INT

/-- Witness for C9 at the raw return value 42, error code 7, pid 1,
signal INT, the empty set, and action 0. -/
theorem spec_c9_witness :
    (Pid.own 42 7 = Except.error 7 ↔ (42 : Int) = -1) ∧
    (Pid.own 42 7 = Except.ok (Pid.mk 42) ↔ (42 : Int) ≠ -1) ∧
    (Pid.parent 42 7 = Except.error 7 ↔ (42 : Int) = -1) ∧
    (Pid.parent 42 7 = Except.ok (Pid.mk 42) ↔ (42 : Int) ≠ -1) ∧
    ((Pid.mk 1).send Sig.INT 42 7 = Except.error 7 ↔ (42 : Int) = -1) ∧
    ((Pid.mk 1).send Sig.INT 42 7 = Except.ok () ↔ (42 : Int) ≠ -1) ∧
    Sig.INT.send_to (Pid.mk 1) 42 7 = (Pid.mk 1).send Sig.INT 42 7 ∧
    (SigSet.new.set_procmask 0 42 7 = Except.error 7 ↔ (42 : Int) = -1) ∧
    (SigSet.new.set_procmask 0 42 7 = Except.ok () ↔ (42 : Int) ≠ -1) ∧
    SigSet.new.disable_default_handler 42 7
      = SigSet.new.set_procmask SIG_BLOCK 42 7 ∧
    SigSet.new.enable_default_handler 42 7
      = SigSet.new.set_procmask SIG_UNBLOCK 42 7 :=
  spec_c9 42 7 (Pid.mk 1) Sig.INT SigSet.new 0

end PakrSignals
